import Mathlib

/-!
# Protected-memory utility functions of the Vulkan conformance tests

Shallow embedding of the selection logic of
`external/vulkancts/modules/vulkan/protected_memory/vktProtectedMemUtils.cpp`:

* `getValidationLayers`                 (source lines 42-71)
* `makeProtectedMemInstance`            (source lines 74-101)
* `chooseProtectedMemQueueFamilyIndex`  (source lines 103-128)
* `makeProtectedMemDevice`              (source lines 130-198)
* the flag selection of `createImage2D`, `makeBuffer` and `makeCommandPool`
  (source lines 200-270 and 527-536)

Conventions.

* A call into the driver is modelled by the value the driver answers with; that
  value is an argument of the embedded function.
* `TCU_THROW(NotSupportedError, msg)` and a failed `DE_ASSERT` are outcomes of
  the type `Outcome`, next to the normal return.
* A function that ends in an object-creation call of the Vulkan framework
  returns the arguments it hands to that call.
* 32-bit unsigned values are natural numbers; a narrowing cast is written
  `% 2 ^ 32`.
-/

set_option autoImplicit false

namespace vkt
namespace ProtectedMem

/-! ## Outcomes -/

/-- How a call of one of the embedded functions ends: it returns a value, it
throws `tcu::NotSupportedError` with a message, or a `DE_ASSERT` stops the
program (the text of the asserted expression is recorded). -/
inductive Outcome (α : Type) where
  | returned (value : α)
  | NotSupportedError (message : String)
  | assertFailed (expression : String)
  deriving DecidableEq, Repr

/-! ## Constants of the Vulkan headers -/

/-- Values of the enumerators and macros of the Vulkan headers that the source
file uses.  The headers are not part of the embedded file, so the values are a
parameter of every function that reads one of them. -/
structure VkConstants where
  VK_FALSE : Nat
  VK_QUEUE_GRAPHICS_BIT : Nat
  VK_QUEUE_COMPUTE_BIT : Nat
  VK_QUEUE_PROTECTED_BIT_KHR : Nat
  VK_DEVICE_QUEUE_CREATE_PROTECTED_BIT_KHR : Nat
  VK_IMAGE_CREATE_PROTECTED_BIT_KHR : Nat
  VK_BUFFER_CREATE_PROTECTED_BIT_KHR : Nat
  VK_COMMAND_POOL_CREATE_RESET_COMMAND_BUFFER_BIT : Nat
  VK_COMMAND_POOL_CREATE_PROTECTED_BIT_KHR : Nat
  deriving DecidableEq, Repr

/-- The values the Vulkan 1.1 headers give to the constants; used to evaluate
the functions on concrete inputs. -/
def vulkanHeaders : VkConstants where
  VK_FALSE := 0
  VK_QUEUE_GRAPHICS_BIT := 0x1
  VK_QUEUE_COMPUTE_BIT := 0x2
  VK_QUEUE_PROTECTED_BIT_KHR := 0x10
  VK_DEVICE_QUEUE_CREATE_PROTECTED_BIT_KHR := 0x1
  VK_IMAGE_CREATE_PROTECTED_BIT_KHR := 0x800
  VK_BUFFER_CREATE_PROTECTED_BIT_KHR := 0x8
  VK_COMMAND_POOL_CREATE_RESET_COMMAND_BUFFER_BIT := 0x2
  VK_COMMAND_POOL_CREATE_PROTECTED_BIT_KHR := 0x4

/-! ## Queue family selection -/

/-- The `VkQueueFamilyProperties` record the driver fills in for one queue
family.  Only `queueFlags` is read by the source. -/
structure VkQueueFamilyProperties where
  queueFlags : Nat
  queueCount : Nat
  timestampValidBits : Nat
  deriving DecidableEq, Repr

/-- The mask `requiredFlags` of source lines 116-118. -/
def requiredFlags (vk : VkConstants) : Nat :=
  vk.VK_QUEUE_GRAPHICS_BIT ||| vk.VK_QUEUE_COMPUTE_BIT ||| vk.VK_QUEUE_PROTECTED_BIT_KHR

/-- The loop of source lines 119-125, entered at index `idx` with the families
from `idx` on still to visit, followed by the throw of line 127.  The value
returned is `(deUint32)idx`. -/
def chooseLoop (vk : VkConstants) : List VkQueueFamilyProperties → Nat → Outcome Nat
  | [], _ => Outcome.NotSupportedError "No matching universal protected queue found"
  | p :: rest, idx =>
    let flags := p.queueFlags
    if (flags &&& requiredFlags vk) = requiredFlags vk then
      Outcome.returned (idx % 2 ^ 32)
    else
      chooseLoop vk rest (idx + 1)

/-- The function `chooseProtectedMemQueueFamilyIndex` (source lines 103-128).
`properties` is the vector the two driver queries leave behind; its length is
`numFamilies`.  `deDebug` tells whether the build defines `DE_DEBUG`: only then
does `DE_ASSERT(numFamilies > 0)` of line 110 check anything. -/
def chooseProtectedMemQueueFamilyIndex (vk : VkConstants) (deDebug : Bool)
    (properties : List VkQueueFamilyProperties) : Outcome Nat :=
  let numFamilies := properties.length
  if deDebug && !(decide (numFamilies > 0)) then
    Outcome.assertFailed "numFamilies > 0"
  else
    chooseLoop vk properties 0

/-! ## Layers and extensions -/

/-- The `VkLayerProperties` record of one supported instance layer. -/
structure VkLayerProperties where
  layerName : String
  specVersion : Nat
  implementationVersion : Nat
  description : String
  deriving DecidableEq, Repr

/-- The `VkExtensionProperties` record of one supported extension. -/
structure VkExtensionProperties where
  extensionName : String
  specVersion : Nat
  deriving DecidableEq, Repr

/-- Modelled from the spec: `vk::isLayerSupported` applied to
`vk::RequiredLayer(name)` is defined in vkQueryUtil, which is not among the
sources at hand.  The spec describes the check as set membership of the
required name among the available names. -/
def isLayerSupported (layers : List VkLayerProperties) (required : String) : Bool :=
  layers.any (fun layer => layer.layerName == required)

/-- Modelled from the spec: `vk::isExtensionSupported` applied to
`vk::RequiredExtension(name)` is defined in vkQueryUtil, which is not among the
sources at hand.  The spec describes the check as set membership of the
required name among the available names. -/
def isExtensionSupported (extensions : List VkExtensionProperties) (required : String) : Bool :=
  extensions.any (fun extension => extension.extensionName == required)

/-- The string `s_magicLayer` of source line 44. -/
def s_magicLayer : String := "VK_LAYER_LUNARG_standard_validation"

/-- The array `s_defaultLayers` of source lines 45-55. -/
def s_defaultLayers : List String :=
  [ "VK_LAYER_GOOGLE_threading",
    "VK_LAYER_LUNARG_parameter_validation",
    "VK_LAYER_LUNARG_device_limits",
    "VK_LAYER_LUNARG_object_tracker",
    "VK_LAYER_LUNARG_image",
    "VK_LAYER_LUNARG_core_validation",
    "VK_LAYER_LUNARG_swapchain",
    "VK_LAYER_GOOGLE_unique_objects" ]

/-- The loop of source lines 63-67 over the entries of `s_defaultLayers` still
to visit; `enabledLayers` is the vector built so far and a supported name is
appended to it (`push_back`). -/
def defaultLayersLoop (supportedLayers : List VkLayerProperties) :
    List String → List String → List String
  | [], enabledLayers => enabledLayers
  | name :: rest, enabledLayers =>
    if isLayerSupported supportedLayers name then
      defaultLayersLoop supportedLayers rest (enabledLayers ++ [name])
    else
      defaultLayersLoop supportedLayers rest enabledLayers

/-- The function `getValidationLayers` (source lines 42-71).  `supportedLayers`
is the answer of `enumerateInstanceLayerProperties(vkp)`. -/
def getValidationLayers (supportedLayers : List VkLayerProperties) : List String :=
  let enabledLayers : List String := []
  if isLayerSupported supportedLayers s_magicLayer then
    enabledLayers ++ [s_magicLayer]
  else
    defaultLayersLoop supportedLayers s_defaultLayers enabledLayers

/-! ## Instance creation -/

/-- The two name lists `makeProtectedMemInstance` hands to
`vk::createDefaultInstance`. -/
structure DefaultInstanceArgs where
  enabledLayers : List String
  enabledExtensions : List String
  deriving DecidableEq, Repr

/-- The vector `requiredExtensions` of `makeProtectedMemInstance` after the
`push_back` of source line 90. -/
def requiredExtensions : List String :=
  [] ++ ["VK_KHR_get_physical_device_properties2"]

/-- The loop of source lines 92-98 (and, with the array `extensions`, of source
lines 142-146) over the required names still to visit: the first name that is
not supported throws; when none is left the function goes on with `next`. -/
def requiredExtensionsLoop {α : Type} (supportedExtensions : List VkExtensionProperties)
    (next : Outcome α) : List String → Outcome α
  | [] => next
  | requiredExtName :: rest =>
    if !(isExtensionSupported supportedExtensions requiredExtName) then
      Outcome.NotSupportedError (requiredExtName ++ " is not supported")
    else
      requiredExtensionsLoop supportedExtensions next rest

/-- The function `makeProtectedMemInstance` (source lines 74-101).
`supportedExtensions` is the answer of `enumerateInstanceExtensionProperties`,
`supportedLayers` the answer of `enumerateInstanceLayerProperties` and
`debugReportSupported` the answer of `vk::isDebugReportSupported(vkp)`. -/
def makeProtectedMemInstance (supportedExtensions : List VkExtensionProperties)
    (supportedLayers : List VkLayerProperties) (debugReportSupported : Bool)
    (isValidationEnabled : Bool) : Outcome DefaultInstanceArgs :=
  let checkAndCreate (enabledLayers : List String) : Outcome DefaultInstanceArgs :=
    requiredExtensionsLoop supportedExtensions
      (Outcome.returned (DefaultInstanceArgs.mk enabledLayers requiredExtensions))
      requiredExtensions
  if isValidationEnabled then
    if !debugReportSupported then
      Outcome.NotSupportedError "VK_EXT_debug_report is not supported"
    else
      let enabledLayers := getValidationLayers supportedLayers
      if enabledLayers.isEmpty then
        Outcome.NotSupportedError "No validation layers found"
      else
        checkAndCreate enabledLayers
  else
    checkAndCreate []

/-! ## Device creation -/

/-- The entry of `queueInfos` in `makeProtectedMemDevice`; the priorities array
holds the single value `1.0f` and is represented by its length `queueCount`. -/
structure VkDeviceQueueCreateInfo where
  flags : Nat
  queueFamilyIndex : Nat
  queueCount : Nat
  deriving DecidableEq, Repr

/-- The record `deviceParams` handed to `vk::createDevice`. -/
structure VkDeviceCreateInfo where
  flags : Nat
  queueCreateInfos : List VkDeviceQueueCreateInfo
  enabledLayerCount : Nat
  enabledExtensionNames : List String
  deriving DecidableEq, Repr

/-- The array `extensions` of source lines 136-139; `extensionsCount` is its
length. -/
def extensions : List String := ["VK_KHR_protected_memory"]

/-- The function `makeProtectedMemDevice` (source lines 130-198).
`supportedExtensions` is the answer of `enumerateDeviceExtensionProperties` and
`protectedMemory` the value of `protectedFeature.protectedMemory` after the
call of `getPhysicalDeviceFeatures2KHR` (it was `VK_FALSE` before the call). -/
def makeProtectedMemDevice (vk : VkConstants) (supportedExtensions : List VkExtensionProperties)
    (protectedMemory : Nat) (queueFamilyIndex : Nat) : Outcome VkDeviceCreateInfo :=
  requiredExtensionsLoop supportedExtensions
    (if protectedMemory = vk.VK_FALSE then
      Outcome.NotSupportedError "Protected Memory feature not supported by the device"
    else
      let queueInfos : List VkDeviceQueueCreateInfo :=
        [ VkDeviceQueueCreateInfo.mk vk.VK_DEVICE_QUEUE_CREATE_PROTECTED_BIT_KHR
            queueFamilyIndex 1 ]
      Outcome.returned
        (VkDeviceCreateInfo.mk 0 queueInfos 0 extensions))
    extensions

/-! ## Images, buffers and command pools -/

/-- The enumeration `ProtectionMode` of vktProtectedMemUtils.hpp, a header that
is not among the sources at hand.  The source file only ever compares a mode
with `PROTECTION_ENABLED`, so every other mode takes the same path as
`PROTECTION_DISABLED`. -/
inductive ProtectionMode where
  | PROTECTION_DISABLED
  | PROTECTION_ENABLED
  deriving DecidableEq, Repr

/-- The named values of `vk::MemoryRequirement` of the framework (vkMemUtil.hpp,
not among the sources at hand).  The source file names `Protected` and `Any`
in `createImage2D`; `makeBuffer` passes on the requirement it is given. -/
inductive MemoryRequirement where
  | Any
  | HostVisible
  | Coherent
  | LazilyAllocated
  | Protected
  deriving DecidableEq, Repr

/-- The fields of `VkImageCreateInfo` that `createImage2D` fills from its
arguments or with a number; the fields set to a fixed enumerator
(`VK_IMAGE_TYPE_2D`, `VK_SAMPLE_COUNT_1_BIT`, `VK_IMAGE_TILING_OPTIMAL`,
`VK_SHARING_MODE_EXCLUSIVE`, `VK_IMAGE_LAYOUT_UNDEFINED`) are the same on every
call and are left out. -/
structure VkImageCreateInfo where
  flags : Nat
  format : Nat
  extent : Nat × Nat × Nat
  mipLevels : Nat
  arrayLayers : Nat
  usage : Nat
  queueFamilyIndices : List Nat
  deriving DecidableEq, Repr

/-- The arguments `createImage2D` hands to the constructor of
`vk::ImageWithMemory`. -/
structure ImageWithMemoryArgs where
  params : VkImageCreateInfo
  memReq : MemoryRequirement
  deriving DecidableEq, Repr

/-- The function `createImage2D` (source lines 200-240). -/
def createImage2D (vk : VkConstants) (protectionMode : ProtectionMode) (queueFamilyIdx : Nat)
    (width height : Nat) (format : Nat) (usageFlags : Nat) : ImageWithMemoryArgs :=
  let flags : Nat :=
    if protectionMode = ProtectionMode.PROTECTION_ENABLED then
      vk.VK_IMAGE_CREATE_PROTECTED_BIT_KHR
    else 0
  let params : VkImageCreateInfo :=
    VkImageCreateInfo.mk flags format (width, height, 1) 1 1 usageFlags [queueFamilyIdx]
  let memReq : MemoryRequirement :=
    if protectionMode = ProtectionMode.PROTECTION_ENABLED then
      MemoryRequirement.Protected
    else MemoryRequirement.Any
  ImageWithMemoryArgs.mk params memReq

/-- The fields of `VkBufferCreateInfo` that `makeBuffer` fills from its
arguments; `sharingMode` is always `VK_SHARING_MODE_EXCLUSIVE` and is left
out. -/
structure VkBufferCreateInfo where
  flags : Nat
  size : Nat
  usage : Nat
  queueFamilyIndices : List Nat
  deriving DecidableEq, Repr

/-- The arguments `makeBuffer` hands to the constructor of
`vk::BufferWithMemory`. -/
structure BufferWithMemoryArgs where
  params : VkBufferCreateInfo
  memReq : MemoryRequirement
  deriving DecidableEq, Repr

/-- The function `makeBuffer` (source lines 242-270). -/
def makeBuffer (vk : VkConstants) (protectionMode : ProtectionMode) (queueFamilyIdx : Nat)
    (size : Nat) (usageFlags : Nat) (memReq : MemoryRequirement) : BufferWithMemoryArgs :=
  let flags : Nat :=
    if protectionMode = ProtectionMode.PROTECTION_ENABLED then
      vk.VK_BUFFER_CREATE_PROTECTED_BIT_KHR
    else 0
  let params : VkBufferCreateInfo :=
    VkBufferCreateInfo.mk flags size usageFlags [queueFamilyIdx]
  BufferWithMemoryArgs.mk params memReq

/-- The arguments `makeCommandPool` hands to `vk::createCommandPool`. -/
structure CommandPoolArgs where
  flags : Nat
  queueFamilyIndex : Nat
  deriving DecidableEq, Repr

/-- The function `makeCommandPool` (source lines 527-536). -/
def makeCommandPool (vk : VkConstants) (protectionMode : ProtectionMode)
    (queueFamilyIdx : Nat) : CommandPoolArgs :=
  let poolFlags : Nat :=
    vk.VK_COMMAND_POOL_CREATE_RESET_COMMAND_BUFFER_BIT
      ||| (if protectionMode = ProtectionMode.PROTECTION_ENABLED then
            vk.VK_COMMAND_POOL_CREATE_PROTECTED_BIT_KHR
          else 0x0)
  CommandPoolArgs.mk poolFlags queueFamilyIdx

/-! ## Queue family selection: properties -/

/-- The loop returns `r` exactly when some position `k` of the families still to
visit passes the mask test, no earlier position does, and `r` is the cast of
the index `idx + k`. -/
theorem chooseLoop_returned_iff (vk : VkConstants) (l : List VkQueueFamilyProperties)
    (idx r : Nat) :
    chooseLoop vk l idx = Outcome.returned r ↔
      ∃ k p, l[k]? = some p ∧
        (p.queueFlags &&& requiredFlags vk) = requiredFlags vk ∧
        (∀ j, j < k → ∀ q, l[j]? = some q →
          (q.queueFlags &&& requiredFlags vk) ≠ requiredFlags vk) ∧
        r = (idx + k) % 2 ^ 32 := by
  induction l generalizing idx with
  | nil => simp [chooseLoop]
  | cons a rest ih =>
    by_cases ha : (a.queueFlags &&& requiredFlags vk) = requiredFlags vk
    · simp only [chooseLoop, ha, if_true, Outcome.returned.injEq]
      constructor
      · intro hr
        exact ⟨0, a, by simp, ha, by intro j hj; omega, by simpa using hr.symm⟩
      · rintro ⟨k, p, _, _, hmin, hr⟩
        cases k with
        | zero => simpa using hr.symm
        | succ k => exact absurd ha (hmin 0 (Nat.succ_pos k) a (by simp))
    · simp only [chooseLoop, ha, if_false]
      rw [ih (idx + 1)]
      constructor
      · rintro ⟨k, p, hk, hp, hmin, hr⟩
        refine ⟨k + 1, p, by simpa using hk, hp, ?_, by rw [hr]; congr 1; omega⟩
        intro j hj q hq
        cases j with
        | zero =>
          have hqa : a = q := by simpa using hq
          exact hqa ▸ ha
        | succ j => exact hmin j (by omega) q (by simpa using hq)
      · rintro ⟨k, p, hk, hp, hmin, hr⟩
        cases k with
        | zero =>
          have hpa : a = p := by simpa using hk
          exact absurd (hpa ▸ hp) ha
        | succ k =>
          refine ⟨k, p, by simpa using hk, hp, ?_, by rw [hr]; congr 1; omega⟩
          intro j hj q hq
          exact hmin (j + 1) (by omega) q (by simpa using hq)

/-- The loop ends in the throw of line 127 exactly when no family still to
visit passes the mask test. -/
theorem chooseLoop_notSupported_iff (vk : VkConstants) (l : List VkQueueFamilyProperties)
    (idx : Nat) :
    chooseLoop vk l idx =
        Outcome.NotSupportedError "No matching universal protected queue found" ↔
      ∀ p ∈ l, (p.queueFlags &&& requiredFlags vk) ≠ requiredFlags vk := by
  induction l generalizing idx with
  | nil => simp [chooseLoop]
  | cons a rest ih =>
    by_cases ha : (a.queueFlags &&& requiredFlags vk) = requiredFlags vk
    · simp [chooseLoop, ha]
    · simp [chooseLoop, ha, ih (idx + 1)]

/-- CLAIM C1.  Let `properties` be the queue families of a physical device; the
vector has `numFamilies` entries and `numFamilies` is a 32-bit count.  Then
`chooseProtectedMemQueueFamilyIndex` returns `i` exactly when `i` is the lowest
index whose `queueFlags` pass the test `(flags & requiredFlags) == requiredFlags`
with `requiredFlags = GRAPHICS | COMPUTE | PROTECTED`: family `i` passes it
(whatever further bits its flags carry) and no family below `i` does. -/
theorem chooseProtectedMemQueueFamilyIndex_lowest (vk : VkConstants) (deDebug : Bool)
    (properties : List VkQueueFamilyProperties) (i : Nat)
    (hcount : properties.length < 2 ^ 32) :
    chooseProtectedMemQueueFamilyIndex vk deDebug properties = Outcome.returned i ↔
      (∃ p, properties[i]? = some p ∧
        (p.queueFlags &&& requiredFlags vk) = requiredFlags vk) ∧
      ∀ j, j < i → ∀ q, properties[j]? = some q →
        (q.queueFlags &&& requiredFlags vk) ≠ requiredFlags vk := by
  have hloop : chooseProtectedMemQueueFamilyIndex vk deDebug properties = Outcome.returned i ↔
      chooseLoop vk properties 0 = Outcome.returned i := by
    unfold chooseProtectedMemQueueFamilyIndex
    cases properties with
    | nil => cases deDebug <;> simp [chooseLoop]
    | cons a rest => simp
  rw [hloop, chooseLoop_returned_iff]
  constructor
  · rintro ⟨k, p, hk, hp, hmin, hr⟩
    have hlt : k < properties.length := by
      rcases List.getElem?_eq_some_iff.mp hk with ⟨h, _⟩
      exact h
    have hik : i = k := by
      rw [hr, Nat.zero_add]
      exact Nat.mod_eq_of_lt (lt_trans hlt hcount)
    subst hik
    exact ⟨⟨p, hk, hp⟩, hmin⟩
  · rintro ⟨⟨p, hk, hp⟩, hmin⟩
    have hlt : i < properties.length := by
      rcases List.getElem?_eq_some_iff.mp hk with ⟨h, _⟩
      exact h
    refine ⟨i, p, hk, hp, hmin, ?_⟩
    rw [Nat.zero_add]
    exact (Nat.mod_eq_of_lt (lt_trans hlt hcount)).symm

/-- Witness of C1: the example of the spec, a graphics-only family followed by a
family with the three required bits and two more; index 1 is returned. -/
theorem chooseProtectedMemQueueFamilyIndex_lowest_witness :
    [VkQueueFamilyProperties.mk 0x1 1 0, VkQueueFamilyProperties.mk 0x1F 4 64].length < 2 ^ 32 ∧
    chooseProtectedMemQueueFamilyIndex vulkanHeaders true
        [VkQueueFamilyProperties.mk 0x1 1 0, VkQueueFamilyProperties.mk 0x1F 4 64]
      = Outcome.returned 1 ∧
    ((∃ p, [VkQueueFamilyProperties.mk 0x1 1 0, VkQueueFamilyProperties.mk 0x1F 4 64][1]?
          = some p ∧
        (p.queueFlags &&& requiredFlags vulkanHeaders) = requiredFlags vulkanHeaders) ∧
      ∀ j, j < 1 → ∀ q,
        [VkQueueFamilyProperties.mk 0x1 1 0, VkQueueFamilyProperties.mk 0x1F 4 64][j]?
          = some q →
        (q.queueFlags &&& requiredFlags vulkanHeaders) ≠ requiredFlags vulkanHeaders) :=
  ⟨by decide, by decide,
   (chooseProtectedMemQueueFamilyIndex_lowest vulkanHeaders true
      [VkQueueFamilyProperties.mk 0x1 1 0, VkQueueFamilyProperties.mk 0x1F 4 64] 1
      (by decide)).mp (by decide)⟩

/-- The loop never returns an index when no family still to visit passes the
mask test. -/
theorem chooseLoop_ne_returned (vk : VkConstants) (l : List VkQueueFamilyProperties)
    (idx r : Nat)
    (hnone : ∀ p ∈ l, (p.queueFlags &&& requiredFlags vk) ≠ requiredFlags vk) :
    chooseLoop vk l idx ≠ Outcome.returned r := by
  rw [← chooseLoop_notSupported_iff vk l idx] at hnone
  rw [hnone]
  exact fun h => Outcome.noConfusion h

/-- CLAIM C2, counterexample.  With no queue family at all, no family has the
three required bits, yet a build with `DE_DEBUG` does not end in
`NotSupportedError`: `DE_ASSERT(numFamilies > 0)` of source line 110 stops the
call first. -/
theorem chooseProtectedMemQueueFamilyIndex_no_family_debug :
    (∀ p ∈ ([] : List VkQueueFamilyProperties),
        (p.queueFlags &&& requiredFlags vulkanHeaders) ≠ requiredFlags vulkanHeaders) ∧
    chooseProtectedMemQueueFamilyIndex vulkanHeaders true [] =
      Outcome.assertFailed "numFamilies > 0" ∧
    ¬ (chooseProtectedMemQueueFamilyIndex vulkanHeaders true [] =
          Outcome.NotSupportedError "No matching universal protected queue found" ↔
        ∀ p ∈ ([] : List VkQueueFamilyProperties),
          (p.queueFlags &&& requiredFlags vulkanHeaders) ≠ requiredFlags vulkanHeaders) := by
  refine ⟨by simp, by decide, ?_⟩
  intro h
  have hns := h.mpr (by simp)
  exact absurd hns (by decide)

/-- CLAIM C2, amended.  Whenever the assertion of source line 110 does not stop
the call (there is at least one queue family, or the build has no `DE_DEBUG`),
`chooseProtectedMemQueueFamilyIndex` ends in `NotSupportedError` with the text
"No matching universal protected queue found" if and only if no family has a
flag mask that contains `GRAPHICS | COMPUTE | PROTECTED`; and for a list without
such a family it never returns an index. -/
theorem chooseProtectedMemQueueFamilyIndex_notSupported_iff (vk : VkConstants)
    (deDebug : Bool) (properties : List VkQueueFamilyProperties)
    (hassert : deDebug = false ∨ 0 < properties.length) :
    (chooseProtectedMemQueueFamilyIndex vk deDebug properties =
          Outcome.NotSupportedError "No matching universal protected queue found" ↔
        ∀ p ∈ properties, (p.queueFlags &&& requiredFlags vk) ≠ requiredFlags vk) ∧
    ((∀ p ∈ properties, (p.queueFlags &&& requiredFlags vk) ≠ requiredFlags vk) →
        ∀ i, chooseProtectedMemQueueFamilyIndex vk deDebug properties ≠ Outcome.returned i) := by
  have hloop : chooseProtectedMemQueueFamilyIndex vk deDebug properties =
      chooseLoop vk properties 0 := by
    unfold chooseProtectedMemQueueFamilyIndex
    rcases hassert with hrel | hpos
    · simp [hrel]
    · simp [hpos]
  rw [hloop]
  exact ⟨chooseLoop_notSupported_iff vk properties 0,
    fun hnone i => chooseLoop_ne_returned vk properties 0 i hnone⟩

/-- Witness of C2, amended: a debug build and two families, neither of which has
the protected bit. -/
theorem chooseProtectedMemQueueFamilyIndex_notSupported_iff_witness :
    (true = false ∨
      0 < [VkQueueFamilyProperties.mk 0x3 1 0, VkQueueFamilyProperties.mk 0x4 1 0].length) ∧
    chooseProtectedMemQueueFamilyIndex vulkanHeaders true
        [VkQueueFamilyProperties.mk 0x3 1 0, VkQueueFamilyProperties.mk 0x4 1 0] =
      Outcome.NotSupportedError "No matching universal protected queue found" ∧
    ((chooseProtectedMemQueueFamilyIndex vulkanHeaders true
          [VkQueueFamilyProperties.mk 0x3 1 0, VkQueueFamilyProperties.mk 0x4 1 0] =
          Outcome.NotSupportedError "No matching universal protected queue found" ↔
        ∀ p ∈ [VkQueueFamilyProperties.mk 0x3 1 0, VkQueueFamilyProperties.mk 0x4 1 0],
          (p.queueFlags &&& requiredFlags vulkanHeaders) ≠ requiredFlags vulkanHeaders) ∧
    ((∀ p ∈ [VkQueueFamilyProperties.mk 0x3 1 0, VkQueueFamilyProperties.mk 0x4 1 0],
          (p.queueFlags &&& requiredFlags vulkanHeaders) ≠ requiredFlags vulkanHeaders) →
        ∀ i, chooseProtectedMemQueueFamilyIndex vulkanHeaders true
          [VkQueueFamilyProperties.mk 0x3 1 0, VkQueueFamilyProperties.mk 0x4 1 0]
            ≠ Outcome.returned i)) :=
  ⟨Or.inr (by decide), by decide,
   chooseProtectedMemQueueFamilyIndex_notSupported_iff vulkanHeaders true
     [VkQueueFamilyProperties.mk 0x3 1 0, VkQueueFamilyProperties.mk 0x4 1 0]
     (Or.inr (by decide))⟩

/-! ## Validation layers: properties -/

/-- A layer is supported exactly when its name is the name of one of the
supported layers. -/
theorem isLayerSupported_iff (layers : List VkLayerProperties) (required : String) :
    isLayerSupported layers required = true ↔
      required ∈ layers.map VkLayerProperties.layerName := by
  simp only [isLayerSupported, List.any_eq_true, List.mem_map, beq_iff_eq]

/-- The loop over the default layers appends, in the order of the array, the
names that are supported. -/
theorem defaultLayersLoop_eq (supportedLayers : List VkLayerProperties)
    (names enabledLayers : List String) :
    defaultLayersLoop supportedLayers names enabledLayers =
      enabledLayers ++ names.filter (fun name => isLayerSupported supportedLayers name) := by
  induction names generalizing enabledLayers with
  | nil => simp [defaultLayersLoop]
  | cons name rest ih =>
    by_cases hname : isLayerSupported supportedLayers name = true
    · simp [defaultLayersLoop, hname, ih]
    · simp [defaultLayersLoop, hname, ih]

/-- The magic layer is not one of the default layers. -/
theorem s_magicLayer_not_default : s_magicLayer ∉ s_defaultLayers := by decide

/-- With the magic layer supported the result is that one name. -/
theorem getValidationLayers_of_magic (supportedLayers : List VkLayerProperties)
    (hmagic : s_magicLayer ∈ supportedLayers.map VkLayerProperties.layerName) :
    getValidationLayers supportedLayers = [s_magicLayer] := by
  have h := (isLayerSupported_iff supportedLayers s_magicLayer).mpr hmagic
  simp [getValidationLayers, h]

/-- Without the magic layer the result is the default layers filtered by
membership of their name among the supported names. -/
theorem getValidationLayers_of_not_magic (supportedLayers : List VkLayerProperties)
    (hmagic : s_magicLayer ∉ supportedLayers.map VkLayerProperties.layerName) :
    getValidationLayers supportedLayers =
      s_defaultLayers.filter
        (fun name => decide (name ∈ supportedLayers.map VkLayerProperties.layerName)) := by
  have h : ¬ isLayerSupported supportedLayers s_magicLayer = true :=
    fun hs => hmagic ((isLayerSupported_iff supportedLayers s_magicLayer).mp hs)
  simp only [getValidationLayers, h, if_false, defaultLayersLoop_eq, List.nil_append]
  apply List.filter_congr
  intro name _
  by_cases hn : name ∈ supportedLayers.map VkLayerProperties.layerName
  · rw [(isLayerSupported_iff supportedLayers name).mpr hn, decide_eq_true hn]
  · have hf : isLayerSupported supportedLayers name = false := by
      cases hb : isLayerSupported supportedLayers name with
      | false => rfl
      | true => exact absurd ((isLayerSupported_iff supportedLayers name).mp hb) hn
    rw [hf, decide_eq_false hn]

/-- CLAIM C3.  For every list of supported layers that does not contain
VK_LAYER_LUNARG_standard_validation, `getValidationLayers` returns exactly the
entries of `s_defaultLayers` whose name is the name of a supported layer, in the
order in which `s_defaultLayers` declares them. -/
theorem getValidationLayers_default_subsequence (supportedLayers : List VkLayerProperties)
    (hmagic : s_magicLayer ∉ supportedLayers.map VkLayerProperties.layerName) :
    getValidationLayers supportedLayers =
        s_defaultLayers.filter
          (fun name => decide (name ∈ supportedLayers.map VkLayerProperties.layerName)) ∧
    List.Sublist (getValidationLayers supportedLayers) s_defaultLayers ∧
    ∀ name, name ∈ getValidationLayers supportedLayers ↔
      name ∈ s_defaultLayers ∧ name ∈ supportedLayers.map VkLayerProperties.layerName := by
  have heq := getValidationLayers_of_not_magic supportedLayers hmagic
  refine ⟨heq, ?_, ?_⟩
  · rw [heq]
    exact List.filter_sublist _
  · intro name
    rw [heq, List.mem_filter, decide_eq_true_iff]

/-- Witness of C3: the supported layers list the swapchain layer before the
threading layer, next to a layer that is no default layer; the result has the
two default layers in the order of `s_defaultLayers`. -/
theorem getValidationLayers_default_subsequence_witness :
    s_magicLayer ∉
      [VkLayerProperties.mk "VK_LAYER_LUNARG_swapchain" 1 1 "",
       VkLayerProperties.mk "VK_LAYER_MESA_overlay" 1 1 "",
       VkLayerProperties.mk "VK_LAYER_GOOGLE_threading" 1 1 ""].map
        VkLayerProperties.layerName ∧
    getValidationLayers
        [VkLayerProperties.mk "VK_LAYER_LUNARG_swapchain" 1 1 "",
         VkLayerProperties.mk "VK_LAYER_MESA_overlay" 1 1 "",
         VkLayerProperties.mk "VK_LAYER_GOOGLE_threading" 1 1 ""] =
      ["VK_LAYER_GOOGLE_threading", "VK_LAYER_LUNARG_swapchain"] ∧
    getValidationLayers
        [VkLayerProperties.mk "VK_LAYER_LUNARG_swapchain" 1 1 "",
         VkLayerProperties.mk "VK_LAYER_MESA_overlay" 1 1 "",
         VkLayerProperties.mk "VK_LAYER_GOOGLE_threading" 1 1 ""] =
      s_defaultLayers.filter
        (fun name => decide (name ∈
          [VkLayerProperties.mk "VK_LAYER_LUNARG_swapchain" 1 1 "",
           VkLayerProperties.mk "VK_LAYER_MESA_overlay" 1 1 "",
           VkLayerProperties.mk "VK_LAYER_GOOGLE_threading" 1 1 ""].map
            VkLayerProperties.layerName)) :=
  ⟨by decide, by decide,
   (getValidationLayers_default_subsequence
      [VkLayerProperties.mk "VK_LAYER_LUNARG_swapchain" 1 1 "",
       VkLayerProperties.mk "VK_LAYER_MESA_overlay" 1 1 "",
       VkLayerProperties.mk "VK_LAYER_GOOGLE_threading" 1 1 ""]
      (by decide)).1⟩

/-- Every name of the result is the name of a supported layer. -/
theorem getValidationLayers_subset (supportedLayers : List VkLayerProperties) (name : String)
    (hname : name ∈ getValidationLayers supportedLayers) :
    name ∈ supportedLayers.map VkLayerProperties.layerName := by
  by_cases hmagic : s_magicLayer ∈ supportedLayers.map VkLayerProperties.layerName
  · rw [getValidationLayers_of_magic supportedLayers hmagic, List.mem_singleton] at hname
    rw [hname]
    exact hmagic
  · rw [getValidationLayers_of_not_magic supportedLayers hmagic, List.mem_filter,
      decide_eq_true_iff] at hname
    exact hname.2

/-- CLAIM C5.  The result of `getValidationLayers` depends only on the set of
supported layer names: two supported-layer lists with the same names, in any
order and with any multiplicity, give the same result. -/
theorem getValidationLayers_depends_on_name_set (layers₁ layers₂ : List VkLayerProperties)
    (hnames : ∀ name, name ∈ layers₁.map VkLayerProperties.layerName ↔
      name ∈ layers₂.map VkLayerProperties.layerName) :
    getValidationLayers layers₁ = getValidationLayers layers₂ := by
  by_cases hmagic : s_magicLayer ∈ layers₁.map VkLayerProperties.layerName
  · rw [getValidationLayers_of_magic layers₁ hmagic,
      getValidationLayers_of_magic layers₂ ((hnames s_magicLayer).mp hmagic)]
  · rw [getValidationLayers_of_not_magic layers₁ hmagic,
      getValidationLayers_of_not_magic layers₂ (fun h => hmagic ((hnames s_magicLayer).mpr h))]
    apply List.filter_congr
    intro name _
    exact decide_eq_decide.mpr (hnames name)

/-- Witness of C5: the same two names, once in one order and once reversed with
a repetition and other versions. -/
theorem getValidationLayers_depends_on_name_set_witness :
    (∀ name,
      name ∈ [VkLayerProperties.mk "VK_LAYER_LUNARG_image" 1 1 "",
              VkLayerProperties.mk "VK_LAYER_GOOGLE_threading" 1 1 ""].map
                VkLayerProperties.layerName ↔
      name ∈ [VkLayerProperties.mk "VK_LAYER_GOOGLE_threading" 2 3 "t",
              VkLayerProperties.mk "VK_LAYER_LUNARG_image" 1 1 "",
              VkLayerProperties.mk "VK_LAYER_GOOGLE_threading" 1 1 ""].map
                VkLayerProperties.layerName) ∧
    getValidationLayers
        [VkLayerProperties.mk "VK_LAYER_LUNARG_image" 1 1 "",
         VkLayerProperties.mk "VK_LAYER_GOOGLE_threading" 1 1 ""] =
      getValidationLayers
        [VkLayerProperties.mk "VK_LAYER_GOOGLE_threading" 2 3 "t",
         VkLayerProperties.mk "VK_LAYER_LUNARG_image" 1 1 "",
         VkLayerProperties.mk "VK_LAYER_GOOGLE_threading" 1 1 ""] ∧
    getValidationLayers
        [VkLayerProperties.mk "VK_LAYER_LUNARG_image" 1 1 "",
         VkLayerProperties.mk "VK_LAYER_GOOGLE_threading" 1 1 ""] =
      ["VK_LAYER_GOOGLE_threading", "VK_LAYER_LUNARG_image"] :=
  have hnames : ∀ name,
      name ∈ [VkLayerProperties.mk "VK_LAYER_LUNARG_image" 1 1 "",
              VkLayerProperties.mk "VK_LAYER_GOOGLE_threading" 1 1 ""].map
                VkLayerProperties.layerName ↔
      name ∈ [VkLayerProperties.mk "VK_LAYER_GOOGLE_threading" 2 3 "t",
              VkLayerProperties.mk "VK_LAYER_LUNARG_image" 1 1 "",
              VkLayerProperties.mk "VK_LAYER_GOOGLE_threading" 1 1 ""].map
                VkLayerProperties.layerName := by
    intro name
    simp only [List.map_cons, List.map_nil, List.mem_cons, List.mem_singleton]
    tauto
  ⟨hnames, getValidationLayers_depends_on_name_set _ _ hnames, by decide⟩

/-- CLAIM C6.  `getValidationLayers` is idempotent: for every supported-layer
list, asking again with the same list gives the same result, and asking with a
supported-layer list that consists of exactly the names returned gives that
same result unchanged. -/
theorem getValidationLayers_idempotent (supportedLayers returnedLayers : List VkLayerProperties)
    (hreturned : ∀ name, name ∈ returnedLayers.map VkLayerProperties.layerName ↔
      name ∈ getValidationLayers supportedLayers) :
    getValidationLayers supportedLayers = getValidationLayers supportedLayers ∧
    getValidationLayers returnedLayers = getValidationLayers supportedLayers := by
  refine ⟨rfl, ?_⟩
  by_cases hmagic : s_magicLayer ∈ supportedLayers.map VkLayerProperties.layerName
  · have hres := getValidationLayers_of_magic supportedLayers hmagic
    rw [hres]
    apply getValidationLayers_of_magic
    rw [hreturned, hres]
    exact List.mem_singleton_self _
  · have hres := getValidationLayers_of_not_magic supportedLayers hmagic
    have hmagicReturned : s_magicLayer ∉ returnedLayers.map VkLayerProperties.layerName := by
      rw [hreturned, hres, List.mem_filter]
      exact fun h => s_magicLayer_not_default h.1
    rw [getValidationLayers_of_not_magic returnedLayers hmagicReturned, hres]
    apply List.filter_congr
    intro name hdefault
    apply decide_eq_decide.mpr
    rw [hreturned, hres, List.mem_filter, decide_eq_true_iff]
    exact ⟨fun h => h.2, fun h => ⟨hdefault, h⟩⟩

/-- Witness of C6: three supported layers, two of them default layers; the
second call is given layers with exactly the two names returned. -/
theorem getValidationLayers_idempotent_witness :
    getValidationLayers
        [VkLayerProperties.mk "VK_LAYER_LUNARG_swapchain" 1 1 "",
         VkLayerProperties.mk "VK_LAYER_MESA_overlay" 1 1 "",
         VkLayerProperties.mk "VK_LAYER_GOOGLE_threading" 1 1 ""] =
      ["VK_LAYER_GOOGLE_threading", "VK_LAYER_LUNARG_swapchain"] ∧
    [VkLayerProperties.mk "VK_LAYER_GOOGLE_threading" 0 0 "",
     VkLayerProperties.mk "VK_LAYER_LUNARG_swapchain" 0 0 ""].map VkLayerProperties.layerName =
      ["VK_LAYER_GOOGLE_threading", "VK_LAYER_LUNARG_swapchain"] ∧
    getValidationLayers
        [VkLayerProperties.mk "VK_LAYER_GOOGLE_threading" 0 0 "",
         VkLayerProperties.mk "VK_LAYER_LUNARG_swapchain" 0 0 ""] =
      getValidationLayers
        [VkLayerProperties.mk "VK_LAYER_LUNARG_swapchain" 1 1 "",
         VkLayerProperties.mk "VK_LAYER_MESA_overlay" 1 1 "",
         VkLayerProperties.mk "VK_LAYER_GOOGLE_threading" 1 1 ""] :=
  ⟨by decide, by decide,
   (getValidationLayers_idempotent
      [VkLayerProperties.mk "VK_LAYER_LUNARG_swapchain" 1 1 "",
       VkLayerProperties.mk "VK_LAYER_MESA_overlay" 1 1 "",
       VkLayerProperties.mk "VK_LAYER_GOOGLE_threading" 1 1 ""]
      [VkLayerProperties.mk "VK_LAYER_GOOGLE_threading" 0 0 "",
       VkLayerProperties.mk "VK_LAYER_LUNARG_swapchain" 0 0 ""]
      (by
        intro name
        have hres : getValidationLayers
            [VkLayerProperties.mk "VK_LAYER_LUNARG_swapchain" 1 1 "",
             VkLayerProperties.mk "VK_LAYER_MESA_overlay" 1 1 "",
             VkLayerProperties.mk "VK_LAYER_GOOGLE_threading" 1 1 ""] =
            ["VK_LAYER_GOOGLE_threading", "VK_LAYER_LUNARG_swapchain"] := by decide
        rw [hres]
        simp only [List.map_cons, List.map_nil])).2⟩

/-- CLAIM C7.  `getValidationLayers` always returns a list (it has no failing
outcome); every name in it is the name of a supported layer; and the list is
empty if and only if none of the nine candidate names, the magic layer and the
eight default layers, is the name of a supported layer. -/
theorem getValidationLayers_omits_unsupported (supportedLayers : List VkLayerProperties) :
    (∃ enabledLayers, getValidationLayers supportedLayers = enabledLayers) ∧
    (∀ name ∈ getValidationLayers supportedLayers,
      name ∈ supportedLayers.map VkLayerProperties.layerName) ∧
    (getValidationLayers supportedLayers = [] ↔
      ∀ name ∈ s_magicLayer :: s_defaultLayers,
        name ∉ supportedLayers.map VkLayerProperties.layerName) ∧
    (s_magicLayer :: s_defaultLayers).length = 9 := by
  refine ⟨⟨_, rfl⟩, fun name hname => getValidationLayers_subset supportedLayers name hname,
    ?_, rfl⟩
  by_cases hmagic : s_magicLayer ∈ supportedLayers.map VkLayerProperties.layerName
  · rw [getValidationLayers_of_magic supportedLayers hmagic]
    constructor
    · intro h
      exact absurd h (List.cons_ne_nil _ _)
    · intro h
      exact absurd hmagic (h s_magicLayer (List.mem_cons_self _ _))
  · rw [getValidationLayers_of_not_magic supportedLayers hmagic, List.filter_eq_nil_iff]
    constructor
    · intro h name hname
      rcases List.mem_cons.mp hname with hm | hd
      · rw [hm]
        exact hmagic
      · exact fun hsup => h name hd (decide_eq_true hsup)
    · intro h name hd hdec
      exact h name (List.mem_cons_of_mem _ hd) (of_decide_eq_true hdec)

/-- CLAIM C8.  The default layers are only a fallback: for every supported-layer
list that contains VK_LAYER_LUNARG_standard_validation, `getValidationLayers`
returns exactly the one-element list with that name, whichever of the eight
layers of `s_defaultLayers` are supported as well. -/
theorem getValidationLayers_magic_only (supportedLayers : List VkLayerProperties)
    (hmagic : s_magicLayer ∈ supportedLayers.map VkLayerProperties.layerName) :
    getValidationLayers supportedLayers = ["VK_LAYER_LUNARG_standard_validation"] := by
  have h : isLayerSupported supportedLayers s_magicLayer = true :=
    (isLayerSupported_iff supportedLayers s_magicLayer).mpr hmagic
  unfold getValidationLayers
  rw [if_pos h]
  rfl

/-- Witness of C8: the magic layer is supported after two default layers. -/
theorem getValidationLayers_magic_only_witness :
    s_magicLayer ∈
      [VkLayerProperties.mk "VK_LAYER_GOOGLE_threading" 1 1 "",
       VkLayerProperties.mk "VK_LAYER_LUNARG_image" 1 1 "",
       VkLayerProperties.mk "VK_LAYER_LUNARG_standard_validation" 1 1 ""].map
        VkLayerProperties.layerName ∧
    getValidationLayers
        [VkLayerProperties.mk "VK_LAYER_GOOGLE_threading" 1 1 "",
         VkLayerProperties.mk "VK_LAYER_LUNARG_image" 1 1 "",
         VkLayerProperties.mk "VK_LAYER_LUNARG_standard_validation" 1 1 ""] =
      ["VK_LAYER_LUNARG_standard_validation"] :=
  ⟨by decide,
   getValidationLayers_magic_only
     [VkLayerProperties.mk "VK_LAYER_GOOGLE_threading" 1 1 "",
      VkLayerProperties.mk "VK_LAYER_LUNARG_image" 1 1 "",
      VkLayerProperties.mk "VK_LAYER_LUNARG_standard_validation" 1 1 ""]
     (by decide)⟩

/-! ## Required extensions: properties -/

/-- An extension is supported exactly when its name is the name of one of the
supported extensions. -/
theorem isExtensionSupported_iff (supported : List VkExtensionProperties) (required : String) :
    isExtensionSupported supported required = true ↔
      required ∈ supported.map VkExtensionProperties.extensionName := by
  simp only [isExtensionSupported, List.any_eq_true, List.mem_map, beq_iff_eq]

/-- The loop over the required names throws for the first name that is not the
name of a supported extension, and goes on with `next` when there is none. -/
theorem requiredExtensionsLoop_eq {α : Type} (supported : List VkExtensionProperties)
    (next : Outcome α) (names : List String) :
    requiredExtensionsLoop supported next names =
      match names.find? (fun name =>
          decide (name ∉ supported.map VkExtensionProperties.extensionName)) with
      | some missing => Outcome.NotSupportedError (missing ++ " is not supported")
      | none => next := by
  induction names with
  | nil => simp [requiredExtensionsLoop]
  | cons name rest ih =>
    by_cases hname : name ∈ supported.map VkExtensionProperties.extensionName
    · have hs := (isExtensionSupported_iff supported name).mpr hname
      simp only [requiredExtensionsLoop, hs, Bool.not_true, Bool.false_eq_true, if_false, ih]
      rw [List.find?_cons_of_neg]
      simpa using hname
    · have hs : isExtensionSupported supported name = false := by
        cases hb : isExtensionSupported supported name with
        | false => rfl
        | true => exact absurd ((isExtensionSupported_iff supported name).mp hb) hname
      simp only [requiredExtensionsLoop, hs, Bool.not_false, if_true]
      rw [List.find?_cons_of_pos]
      simpa using hname

/-- CLAIM C4.  With validation disabled and for every list of supported instance
extensions, `makeProtectedMemInstance` gets past its required-extension check
and reaches `createDefaultInstance` if and only if every name in
`requiredExtensions` (here VK_KHR_get_physical_device_properties2) is the name
of a supported extension; it then passes no layers and the required names.
Otherwise it throws `NotSupportedError` with the text made of the first
required name that is missing followed by " is not supported". -/
theorem makeProtectedMemInstance_required_extensions
    (supportedExtensions : List VkExtensionProperties)
    (supportedLayers : List VkLayerProperties) (debugReportSupported : Bool) :
    ((∃ args, makeProtectedMemInstance supportedExtensions supportedLayers
          debugReportSupported false = Outcome.returned args) ↔
      ∀ name ∈ requiredExtensions,
        name ∈ supportedExtensions.map VkExtensionProperties.extensionName) ∧
    ((∀ name ∈ requiredExtensions,
        name ∈ supportedExtensions.map VkExtensionProperties.extensionName) →
      makeProtectedMemInstance supportedExtensions supportedLayers debugReportSupported false =
        Outcome.returned
          (DefaultInstanceArgs.mk [] ["VK_KHR_get_physical_device_properties2"])) ∧
    (¬ (∀ name ∈ requiredExtensions,
        name ∈ supportedExtensions.map VkExtensionProperties.extensionName) →
      ∃ missing,
        requiredExtensions.find? (fun name =>
          decide (name ∉ supportedExtensions.map VkExtensionProperties.extensionName))
          = some missing ∧
        makeProtectedMemInstance supportedExtensions supportedLayers debugReportSupported false =
          Outcome.NotSupportedError (missing ++ " is not supported")) ∧
    requiredExtensions = ["VK_KHR_get_physical_device_properties2"] := by
  have hrun : makeProtectedMemInstance supportedExtensions supportedLayers
      debugReportSupported false =
      match requiredExtensions.find? (fun name =>
          decide (name ∉ supportedExtensions.map VkExtensionProperties.extensionName)) with
      | some missing => Outcome.NotSupportedError (missing ++ " is not supported")
      | none => Outcome.returned (DefaultInstanceArgs.mk [] requiredExtensions) := by
    simp only [makeProtectedMemInstance, Bool.false_eq_true, if_false]
    exact requiredExtensionsLoop_eq supportedExtensions _ requiredExtensions
  have hreq : requiredExtensions = ["VK_KHR_get_physical_device_properties2"] := rfl
  cases hfind : requiredExtensions.find? (fun name =>
      decide (name ∉ supportedExtensions.map VkExtensionProperties.extensionName)) with
  | none =>
    have hall : ∀ name ∈ requiredExtensions,
        name ∈ supportedExtensions.map VkExtensionProperties.extensionName := by
      intro name hname
      have := List.find?_eq_none.mp hfind name hname
      simpa using this
    rw [hfind] at hrun
    refine ⟨⟨fun _ => hall, fun _ => ⟨_, hrun⟩⟩, fun _ => ?_, fun hnot => absurd hall hnot, hreq⟩
    rw [hrun, hreq]
  | some missing =>
    have hmiss := List.find?_some hfind
    have hmem := List.mem_of_find?_eq_some hfind
    have hnotall : ¬ ∀ name ∈ requiredExtensions,
        name ∈ supportedExtensions.map VkExtensionProperties.extensionName :=
      fun hall => (of_decide_eq_true hmiss) (hall missing hmem)
    rw [hfind] at hrun
    refine ⟨⟨?_, fun hall => absurd hall hnotall⟩, fun hall => absurd hall hnotall,
      fun _ => ⟨missing, rfl, hrun⟩, hreq⟩
    rintro ⟨args, hargs⟩
    rw [hrun] at hargs
    exact Outcome.noConfusion hargs

/-- CLAIM C9.  `makeProtectedMemDevice` reaches device creation if and only if
VK_KHR_protected_memory is the name of a supported device extension and the
queried `protectedMemory` feature is not `VK_FALSE`; otherwise it throws
`NotSupportedError`.  When the extension is missing the error is
"VK_KHR_protected_memory is not supported" whatever the feature query reports,
because the extension check comes first; with the extension present and the
feature `VK_FALSE` the error is the feature error. -/
theorem makeProtectedMemDevice_reaches_creation (vk : VkConstants)
    (supportedExtensions : List VkExtensionProperties)
    (protectedMemory queueFamilyIndex : Nat) :
    ((∃ deviceParams, makeProtectedMemDevice vk supportedExtensions protectedMemory
          queueFamilyIndex = Outcome.returned deviceParams) ↔
      ("VK_KHR_protected_memory" ∈
          supportedExtensions.map VkExtensionProperties.extensionName ∧
        protectedMemory ≠ vk.VK_FALSE)) ∧
    (¬ ("VK_KHR_protected_memory" ∈
          supportedExtensions.map VkExtensionProperties.extensionName ∧
        protectedMemory ≠ vk.VK_FALSE) →
      ∃ message, makeProtectedMemDevice vk supportedExtensions protectedMemory
          queueFamilyIndex = Outcome.NotSupportedError message) ∧
    ("VK_KHR_protected_memory" ∉
        supportedExtensions.map VkExtensionProperties.extensionName →
      makeProtectedMemDevice vk supportedExtensions protectedMemory queueFamilyIndex =
        Outcome.NotSupportedError "VK_KHR_protected_memory is not supported") ∧
    ("VK_KHR_protected_memory" ∈
        supportedExtensions.map VkExtensionProperties.extensionName →
      protectedMemory = vk.VK_FALSE →
      makeProtectedMemDevice vk supportedExtensions protectedMemory queueFamilyIndex =
        Outcome.NotSupportedError "Protected Memory feature not supported by the device") := by
  by_cases hext : "VK_KHR_protected_memory" ∈
      supportedExtensions.map VkExtensionProperties.extensionName
  · have hrun : makeProtectedMemDevice vk supportedExtensions protectedMemory queueFamilyIndex =
        (if protectedMemory = vk.VK_FALSE then
          Outcome.NotSupportedError "Protected Memory feature not supported by the device"
        else
          Outcome.returned
            (VkDeviceCreateInfo.mk 0
              [VkDeviceQueueCreateInfo.mk vk.VK_DEVICE_QUEUE_CREATE_PROTECTED_BIT_KHR
                queueFamilyIndex 1] 0 extensions)) := by
      have hfind : extensions.find? (fun name =>
          decide (name ∉ supportedExtensions.map VkExtensionProperties.extensionName)) = none := by
        apply List.find?_eq_none.mpr
        intro name hname
        have hn : name = "VK_KHR_protected_memory" := by simpa [extensions] using hname
        rw [hn]
        exact fun hdec => (of_decide_eq_true hdec) hext
      unfold makeProtectedMemDevice
      rw [requiredExtensionsLoop_eq, hfind]
    by_cases hfeat : protectedMemory = vk.VK_FALSE
    · rw [if_pos hfeat] at hrun
      refine ⟨⟨?_, fun h => absurd hfeat h.2⟩, fun _ => ⟨_, hrun⟩, fun h => absurd hext h,
        fun _ _ => hrun⟩
      rintro ⟨deviceParams, hp⟩
      rw [hrun] at hp
      exact Outcome.noConfusion hp
    · rw [if_neg hfeat] at hrun
      exact ⟨⟨fun _ => ⟨hext, hfeat⟩, fun _ => ⟨_, hrun⟩⟩, fun h => absurd ⟨hext, hfeat⟩ h,
        fun h => absurd hext h, fun _ h => absurd h hfeat⟩
  · have hrun : makeProtectedMemDevice vk supportedExtensions protectedMemory queueFamilyIndex =
        Outcome.NotSupportedError "VK_KHR_protected_memory is not supported" := by
      have hfind : extensions.find? (fun name =>
          decide (name ∉ supportedExtensions.map VkExtensionProperties.extensionName)) =
          some "VK_KHR_protected_memory" := by
        unfold extensions
        rw [List.find?_cons_of_pos]
        exact decide_eq_true hext
      unfold makeProtectedMemDevice
      rw [requiredExtensionsLoop_eq, hfind]
      rfl
    refine ⟨⟨?_, fun h => absurd h.1 hext⟩, fun _ => ⟨_, hrun⟩, fun _ => hrun,
      fun h => absurd h hext⟩
    rintro ⟨deviceParams, hp⟩
    rw [hrun] at hp
    exact Outcome.noConfusion hp

/-! ## Protected create bits: properties -/

/-- Or-ing a mask in sets all bits of the mask on the left. -/
theorem or_and_left_self (a b : Nat) : (a ||| b) &&& a = a := by
  apply Nat.eq_of_testBit_eq
  intro i
  rw [Nat.testBit_and, Nat.testBit_or]
  cases a.testBit i <;> simp

/-- Or-ing a mask in sets all bits of the mask on the right. -/
theorem or_and_right_self (a b : Nat) : (a ||| b) &&& b = b := by
  apply Nat.eq_of_testBit_eq
  intro i
  rw [Nat.testBit_and, Nat.testBit_or]
  cases b.testBit i <;> simp

/-- CLAIM C10.  For every protection mode the protected create bit is set
exactly when `protectionMode == PROTECTION_ENABLED`.  `createImage2D` uses the
flags `VK_IMAGE_CREATE_PROTECTED_BIT_KHR` and the memory requirement `Protected`
when enabled, the flags 0 and the requirement `Any` otherwise; `makeBuffer` uses
`VK_BUFFER_CREATE_PROTECTED_BIT_KHR` when enabled and 0 otherwise;
`makeCommandPool` always sets `VK_COMMAND_POOL_CREATE_RESET_COMMAND_BUFFER_BIT`
and sets `VK_COMMAND_POOL_CREATE_PROTECTED_BIT_KHR` as well if and only if
enabled.  The hypotheses say of the header constants that the two create bits
are not zero and that the pool's protected bit is not contained in its reset
bit. -/
theorem protected_bit_iff_enabled (vk : VkConstants) (protectionMode : ProtectionMode)
    (queueFamilyIdx width height format imageUsage size bufferUsage : Nat)
    (memReq : MemoryRequirement)
    (himage : vk.VK_IMAGE_CREATE_PROTECTED_BIT_KHR ≠ 0)
    (hbuffer : vk.VK_BUFFER_CREATE_PROTECTED_BIT_KHR ≠ 0)
    (hpool : vk.VK_COMMAND_POOL_CREATE_RESET_COMMAND_BUFFER_BIT &&&
        vk.VK_COMMAND_POOL_CREATE_PROTECTED_BIT_KHR ≠
      vk.VK_COMMAND_POOL_CREATE_PROTECTED_BIT_KHR) :
    ((createImage2D vk protectionMode queueFamilyIdx width height format imageUsage).params.flags
        = (if protectionMode = ProtectionMode.PROTECTION_ENABLED then
            vk.VK_IMAGE_CREATE_PROTECTED_BIT_KHR else 0) ∧
      (createImage2D vk protectionMode queueFamilyIdx width height format imageUsage).memReq
        = (if protectionMode = ProtectionMode.PROTECTION_ENABLED then
            MemoryRequirement.Protected else MemoryRequirement.Any) ∧
      ((createImage2D vk protectionMode queueFamilyIdx width height format
            imageUsage).params.flags &&& vk.VK_IMAGE_CREATE_PROTECTED_BIT_KHR
          = vk.VK_IMAGE_CREATE_PROTECTED_BIT_KHR ↔
        protectionMode = ProtectionMode.PROTECTION_ENABLED)) ∧
    ((makeBuffer vk protectionMode queueFamilyIdx size bufferUsage memReq).params.flags
        = (if protectionMode = ProtectionMode.PROTECTION_ENABLED then
            vk.VK_BUFFER_CREATE_PROTECTED_BIT_KHR else 0) ∧
      ((makeBuffer vk protectionMode queueFamilyIdx size bufferUsage memReq).params.flags
            &&& vk.VK_BUFFER_CREATE_PROTECTED_BIT_KHR
          = vk.VK_BUFFER_CREATE_PROTECTED_BIT_KHR ↔
        protectionMode = ProtectionMode.PROTECTION_ENABLED)) ∧
    ((makeCommandPool vk protectionMode queueFamilyIdx).flags
        = (vk.VK_COMMAND_POOL_CREATE_RESET_COMMAND_BUFFER_BIT |||
            (if protectionMode = ProtectionMode.PROTECTION_ENABLED then
              vk.VK_COMMAND_POOL_CREATE_PROTECTED_BIT_KHR else 0)) ∧
      (makeCommandPool vk protectionMode queueFamilyIdx).flags
          &&& vk.VK_COMMAND_POOL_CREATE_RESET_COMMAND_BUFFER_BIT
        = vk.VK_COMMAND_POOL_CREATE_RESET_COMMAND_BUFFER_BIT ∧
      ((makeCommandPool vk protectionMode queueFamilyIdx).flags
            &&& vk.VK_COMMAND_POOL_CREATE_PROTECTED_BIT_KHR
          = vk.VK_COMMAND_POOL_CREATE_PROTECTED_BIT_KHR ↔
        protectionMode = ProtectionMode.PROTECTION_ENABLED)) := by
  cases protectionMode with
  | PROTECTION_ENABLED =>
    simp only [createImage2D, makeBuffer, makeCommandPool, if_true, Nat.and_self,
      or_and_left_self, or_and_right_self, true_and, and_self]
  | PROTECTION_DISABLED =>
    have hne : ProtectionMode.PROTECTION_DISABLED ≠ ProtectionMode.PROTECTION_ENABLED :=
      fun h => ProtectionMode.noConfusion h
    simp only [createImage2D, makeBuffer, makeCommandPool, hne, if_false, Nat.zero_and,
      Nat.or_zero, Nat.and_self, true_and, iff_false]
    exact ⟨fun h => himage h.symm, fun h => hbuffer h.symm, hpool⟩

/-- Witness of C10: the constants of the Vulkan headers meet the hypotheses; an
enabled 16 by 16 image gets the flags 0x800 and protected memory, an enabled
buffer the flags 0x8, an enabled command pool the flags 0x6 and a disabled one
the flags 0x2. -/
theorem protected_bit_iff_enabled_witness :
    vulkanHeaders.VK_IMAGE_CREATE_PROTECTED_BIT_KHR ≠ 0 ∧
    vulkanHeaders.VK_BUFFER_CREATE_PROTECTED_BIT_KHR ≠ 0 ∧
    (vulkanHeaders.VK_COMMAND_POOL_CREATE_RESET_COMMAND_BUFFER_BIT &&&
        vulkanHeaders.VK_COMMAND_POOL_CREATE_PROTECTED_BIT_KHR ≠
      vulkanHeaders.VK_COMMAND_POOL_CREATE_PROTECTED_BIT_KHR) ∧
    createImage2D vulkanHeaders ProtectionMode.PROTECTION_ENABLED 0 16 16 37 6 =
      ImageWithMemoryArgs.mk (VkImageCreateInfo.mk 0x800 37 (16, 16, 1) 1 1 6 [0])
        MemoryRequirement.Protected ∧
    makeBuffer vulkanHeaders ProtectionMode.PROTECTION_ENABLED 0 64 32
        MemoryRequirement.HostVisible =
      BufferWithMemoryArgs.mk (VkBufferCreateInfo.mk 0x8 64 32 [0])
        MemoryRequirement.HostVisible ∧
    makeCommandPool vulkanHeaders ProtectionMode.PROTECTION_ENABLED 0 =
      CommandPoolArgs.mk 0x6 0 ∧
    makeCommandPool vulkanHeaders ProtectionMode.PROTECTION_DISABLED 0 =
      CommandPoolArgs.mk 0x2 0 ∧
    ((makeCommandPool vulkanHeaders ProtectionMode.PROTECTION_ENABLED 0).flags
          &&& vulkanHeaders.VK_COMMAND_POOL_CREATE_PROTECTED_BIT_KHR
        = vulkanHeaders.VK_COMMAND_POOL_CREATE_PROTECTED_BIT_KHR ↔
      ProtectionMode.PROTECTION_ENABLED = ProtectionMode.PROTECTION_ENABLED) :=
  ⟨by decide, by decide, by decide, by decide, by decide, by decide, by decide,
   (protected_bit_iff_enabled vulkanHeaders ProtectionMode.PROTECTION_ENABLED 0 16 16 37 6 64 32
      MemoryRequirement.HostVisible (by decide) (by decide) (by decide)).2.2.2.2⟩

/-! ## Evaluation on concrete inputs -/

/-- An instance without the required extension: the error names it. -/
theorem makeProtectedMemInstance_missing_extension :
    makeProtectedMemInstance [VkExtensionProperties.mk "VK_KHR_surface" 25] [] false false =
      Outcome.NotSupportedError
        "VK_KHR_get_physical_device_properties2 is not supported" := by
  decide

/-- An instance with the required extension and validation enabled: the layers
found by `getValidationLayers` are passed on. -/
theorem makeProtectedMemInstance_with_validation :
    makeProtectedMemInstance
        [VkExtensionProperties.mk "VK_KHR_get_physical_device_properties2" 1]
        [VkLayerProperties.mk "VK_LAYER_LUNARG_standard_validation" 1 1 ""] true true =
      Outcome.returned
        (DefaultInstanceArgs.mk ["VK_LAYER_LUNARG_standard_validation"]
          ["VK_KHR_get_physical_device_properties2"]) := by
  decide

/-- A device without the extension but with the feature reported: the extension
error wins. -/
theorem makeProtectedMemDevice_missing_extension :
    makeProtectedMemDevice vulkanHeaders [VkExtensionProperties.mk "VK_KHR_swapchain" 70] 1 0 =
      Outcome.NotSupportedError "VK_KHR_protected_memory is not supported" := by
  decide

/-- A device with the extension and the feature: one protected queue of family
2 is asked for. -/
theorem makeProtectedMemDevice_created :
    makeProtectedMemDevice vulkanHeaders
        [VkExtensionProperties.mk "VK_KHR_protected_memory" 1] 1 2 =
      Outcome.returned
        (VkDeviceCreateInfo.mk 0 [VkDeviceQueueCreateInfo.mk 0x1 2 1] 0
          ["VK_KHR_protected_memory"]) := by
  decide

/-! ## Queue family selection: bounds of the returned index -/

/-- A returned index always comes from the loop: the assertion of line 110
either stops the call or lets it reach the loop. -/
theorem chooseProtectedMemQueueFamilyIndex_returned_loop (vk : VkConstants) (deDebug : Bool)
    (properties : List VkQueueFamilyProperties) (i : Nat)
    (hreturned : chooseProtectedMemQueueFamilyIndex vk deDebug properties =
      Outcome.returned i) :
    chooseLoop vk properties 0 = Outcome.returned i := by
  unfold chooseProtectedMemQueueFamilyIndex at hreturned
  cases properties with
  | nil =>
    cases deDebug
    · simpa using hreturned
    · simp at hreturned
  | cons a rest => simpa using hreturned

/-- CLAIM C11.  Let the vector `properties` have `numFamilies` entries, a 32-bit
count.  Whenever `chooseProtectedMemQueueFamilyIndex` returns an index, that
index is strictly less than the number of queue families, so `properties[idx]`
is in bounds, and the cast `(deUint32)idx` of line 124 loses nothing: the loop
index `idx` at which the function returns is below `2 ^ 32`, and the returned
value is `idx` itself, not only `idx` modulo `2 ^ 32`. -/
theorem chooseProtectedMemQueueFamilyIndex_in_bounds (vk : VkConstants) (deDebug : Bool)
    (properties : List VkQueueFamilyProperties) (i : Nat)
    (hcount : properties.length < 2 ^ 32)
    (hreturned : chooseProtectedMemQueueFamilyIndex vk deDebug properties =
      Outcome.returned i) :
    i < properties.length ∧
    (∃ p, properties[i]? = some p) ∧
    ∃ idx, idx < properties.length ∧
      (∃ p, properties[idx]? = some p ∧
        (p.queueFlags &&& requiredFlags vk) = requiredFlags vk) ∧
      (∀ j, j < idx → ∀ q, properties[j]? = some q →
        (q.queueFlags &&& requiredFlags vk) ≠ requiredFlags vk) ∧
      i = idx % 2 ^ 32 ∧ idx < 2 ^ 32 ∧ idx % 2 ^ 32 = idx ∧ i = idx := by
  have hloop := chooseProtectedMemQueueFamilyIndex_returned_loop vk deDebug properties i hreturned
  rcases (chooseLoop_returned_iff vk properties 0 i).mp hloop with ⟨k, p, hk, hp, hmin, hr⟩
  rw [Nat.zero_add] at hr
  have hlt : k < properties.length := by
    rcases List.getElem?_eq_some_iff.mp hk with ⟨h, _⟩
    exact h
  have hk32 : k < 2 ^ 32 := lt_trans hlt hcount
  have hmod : k % 2 ^ 32 = k := Nat.mod_eq_of_lt hk32
  have hik : i = k := by rw [hr, hmod]
  refine ⟨by rw [hik]; exact hlt, ⟨p, by rw [hik]; exact hk⟩, k, hlt, ⟨p, hk, hp⟩, hmin, hr,
    hk32, hmod, hik⟩

/-- Witness of C11: three families, of which only the last has the three
required bits; the index returned is 2, below the count 3. -/
theorem chooseProtectedMemQueueFamilyIndex_in_bounds_witness :
    [VkQueueFamilyProperties.mk 0x4 1 0, VkQueueFamilyProperties.mk 0x3 2 64,
      VkQueueFamilyProperties.mk 0x13 1 64].length < 2 ^ 32 ∧
    chooseProtectedMemQueueFamilyIndex vulkanHeaders false
        [VkQueueFamilyProperties.mk 0x4 1 0, VkQueueFamilyProperties.mk 0x3 2 64,
          VkQueueFamilyProperties.mk 0x13 1 64] = Outcome.returned 2 ∧
    2 < [VkQueueFamilyProperties.mk 0x4 1 0, VkQueueFamilyProperties.mk 0x3 2 64,
      VkQueueFamilyProperties.mk 0x13 1 64].length :=
  ⟨by decide, by decide,
   (chooseProtectedMemQueueFamilyIndex_in_bounds vulkanHeaders false
      [VkQueueFamilyProperties.mk 0x4 1 0, VkQueueFamilyProperties.mk 0x3 2 64,
        VkQueueFamilyProperties.mk 0x13 1 64] 2 (by decide) (by decide)).1⟩

end ProtectedMem
end vkt
